import Mathlib

/-!
Verification of RBXLX2VMF (a Roblox-RBXLX-to-Valve-VMF converter) against
its natural-language specification.

The repository's `src/main.rs` (CLI layer: `CLIConvertOptions` and its
`ConvertOptions` trait implementation) is shallowly embedded below.  The
core modules `conv`, `rbx`, `vmf` are declared in `main.rs` but their
source is not part of this tree; where a claim depends on them, the
relevant operation is modelled from the specification and the definition's
doc comment says so.

Modelling conventions:
- `f64` values are carried as their 64-bit patterns (`F64 := Nat`); no
  floating-point arithmetic occurs in the embedded code, only storage,
  field access and fallible parsing (parsing is abstracted as a function
  parameter).
- File-system paths are lists of path components; a file sink is
  identified by the path it is created at.
- Rust `&mut self` / `&self` methods become explicit state passing:
  `options → (result × options)`.
- The static texture byte blobs of `rbx::textures` are opaque resources
  the code selects by identity, so they are embedded as a 25-constructor
  enumeration, one constructor per static blob.
-/

/-- Bit pattern of a Rust `f64`.  The embedded code stores and returns
`f64` values but never computes with them, so the bit pattern is a
faithful carrier.  `0.0` has bit pattern `0`. -/
abbrev F64 : Type := Nat

/-- A file-system path, as its list of components.  Relative paths have
no root component. -/
abbrev FsPath : Type := List String

/-- The `Material` enum of the `rbx` module, as it is matched on
exhaustively by `CLIConvertOptions::texture_input` in `src/main.rs`
(21 built-in finishes plus the open `Custom`/`Decal`/`Texture` variants;
payloads follow the spec's data model §3: `Custom(texture-id)`,
`Decal(image reference, size, face)`, `Texture(image reference, size,
face)`). -/
inductive Material : Type where
  | Plastic | Wood | Slate | Concrete | CorrodedMetal | DiamondPlate
  | Foil | Grass | Ice | Marble | Granite | Brick | Pebble | Sand
  | Fabric | SmoothPlastic | Metal | WoodPlanks | Cobblestone | Glass
  | ForceField
  | Custom (texture : String)
  | Decal (image : Nat) (size : Nat) (face : Nat)
  | Texture (image : Nat) (size : Nat) (face : Nat)
deriving DecidableEq

/-- The static texture byte blobs of `rbx::textures`, opaque resources
selected by identity (`&'static [u8]` constants in the source). -/
inductive TextureBlob : Type where
  | PLASTIC | WOOD | SLATE | CONCRETE | RUST | DIAMONDPLATE | ALUMINIUM
  | GRASS | ICE | MARBLE | GRANITE | BRICK | PEBBLE | SAND | FABRIC
  | SMOOTHPLASTIC | METAL | WOODPLANKS | COBBLESTONE | GLASS | FORCEFIELD
  | DECAL | STUDS | INLET | SPAWNLOCATION
deriving DecidableEq

/-- The `CLIConvertOptions` struct of `src/main.rs` (lines 142-155). -/
structure CLIConvertOptions : Type where
  input_name : String
  input_path : String
  output_path : String
  texture_output_folder : FsPath
  is_texture_output_enabled : Bool
  use_developer_textures : Bool
  map_scale : F64
  auto_skybox_enabled : Bool
  skybox_clearance : F64
  optimization_enabled : Bool
  decal_size : Nat
  skybox_name : String
deriving DecidableEq

namespace ConvertOptions

/-- Embedding of `CLIConvertOptions::input_name` (`&self` accessor). -/
def input_name (o : CLIConvertOptions) : String × CLIConvertOptions :=
  (o.input_name, o)

/-- Embedding of `CLIConvertOptions::texture_input` (`src/main.rs` lines 198-227):
a pure match on the `Material` value; the options state is untouched. -/
def texture_input (o : CLIConvertOptions) (texture : Material) :
    Option TextureBlob × CLIConvertOptions :=
  (match texture with
    | Material.Plastic => some TextureBlob.PLASTIC
    | Material.Wood => some TextureBlob.WOOD
    | Material.Slate => some TextureBlob.SLATE
    | Material.Concrete => some TextureBlob.CONCRETE
    | Material.CorrodedMetal => some TextureBlob.RUST
    | Material.DiamondPlate => some TextureBlob.DIAMONDPLATE
    | Material.Foil => some TextureBlob.ALUMINIUM
    | Material.Grass => some TextureBlob.GRASS
    | Material.Ice => some TextureBlob.ICE
    | Material.Marble => some TextureBlob.MARBLE
    | Material.Granite => some TextureBlob.GRANITE
    | Material.Brick => some TextureBlob.BRICK
    | Material.Pebble => some TextureBlob.PEBBLE
    | Material.Sand => some TextureBlob.SAND
    | Material.Fabric => some TextureBlob.FABRIC
    | Material.SmoothPlastic => some TextureBlob.SMOOTHPLASTIC
    | Material.Metal => some TextureBlob.METAL
    | Material.WoodPlanks => some TextureBlob.WOODPLANKS
    | Material.Cobblestone => some TextureBlob.COBBLESTONE
    | Material.Glass => some TextureBlob.GLASS
    | Material.ForceField => some TextureBlob.FORCEFIELD
    | Material.Custom texture =>
      if texture = "decal" then some TextureBlob.DECAL
      else if texture = "studs" then some TextureBlob.STUDS
      else if texture = "inlet" then some TextureBlob.INLET
      else if texture = "spawnlocation" then some TextureBlob.SPAWNLOCATION
      else none
    | Material.Decal _ _ _ => none
    | Material.Texture _ _ _ => none,
   o)

/-- Embedding of `CLIConvertOptions::texture_output` (`src/main.rs` lines 229-238):
creates (and returns a sink for) the file at
`Path::new(self.texture_output_folder).join(path)`.  For a relative
`path` argument, `Path::join` appends the components. -/
def texture_output (o : CLIConvertOptions) (path : FsPath) :
    FsPath × CLIConvertOptions :=
  (o.texture_output_folder ++ path, o)

/-- Embedding of `CLIConvertOptions::texture_output_enabled`. -/
def texture_output_enabled (o : CLIConvertOptions) :
    Bool × CLIConvertOptions :=
  (o.is_texture_output_enabled, o)

/-- Embedding of `CLIConvertOptions::use_dev_textures`. -/
def use_dev_textures (o : CLIConvertOptions) : Bool × CLIConvertOptions :=
  (o.use_developer_textures, o)

/-- Embedding of `CLIConvertOptions::map_scale`. -/
def map_scale (o : CLIConvertOptions) : F64 × CLIConvertOptions :=
  (o.map_scale, o)

/-- Embedding of `CLIConvertOptions::auto_skybox_enabled`. -/
def auto_skybox_enabled (o : CLIConvertOptions) : Bool × CLIConvertOptions :=
  (o.auto_skybox_enabled, o)

/-- Embedding of `CLIConvertOptions::skybox_clearance`. -/
def skybox_clearance (o : CLIConvertOptions) : F64 × CLIConvertOptions :=
  (o.skybox_clearance, o)

/-- Embedding of `CLIConvertOptions::optimization_enabled`. -/
def optimization_enabled (o : CLIConvertOptions) : Bool × CLIConvertOptions :=
  (o.optimization_enabled, o)

/-- Embedding of `CLIConvertOptions::decal_size`. -/
def decal_size (o : CLIConvertOptions) : Nat × CLIConvertOptions :=
  (o.decal_size, o)

/-- Embedding of `CLIConvertOptions::skybox_name`. -/
def skybox_name (o : CLIConvertOptions) : String × CLIConvertOptions :=
  (o.skybox_name, o)

/-- Embedding of `CLIConvertOptions::web_origin` (`src/main.rs` lines 272-274): the
CLI build returns the constant empty string. -/
def web_origin (o : CLIConvertOptions) : String × CLIConvertOptions :=
  ("", o)

end ConvertOptions

/-- The 21 built-in `Material` variants (spec §3's fixed catalogue). -/
def Material.isBuiltin : Material → Bool
  | Material.Custom _ => false
  | Material.Decal _ _ _ => false
  | Material.Texture _ _ _ => false
  | _ => true

/-- The reserved custom texture ids resolved to fixed built-ins
(spec §3). -/
def reservedCustomIds : List String :=
  ["decal", "studs", "inlet", "spawnlocation"]

/-- Holds on a `Custom` variant whose texture id is reserved; false for every other
variant. -/
def Material.isReservedCustom : Material → Bool
  | Material.Custom t => reservedCustomIds.contains t
  | _ => false

/-- C1: `texture_input` returns `some` blob exactly for the 21 built-in
variants and for `Custom` variants whose texture id is one of the
reserved ids "decal", "studs", "inlet", "spawnlocation"; it returns
`none` for every other `Custom` variant and for every `Decal` and
`Texture` variant. -/
theorem texture_input_some_iff_builtin_or_reserved
    (o : CLIConvertOptions) (m : Material) :
    (ConvertOptions.texture_input o m).1.isSome
      = (m.isBuiltin || m.isReservedCustom) := by
  cases m with
  | Custom t =>
    simp only [ConvertOptions.texture_input, Material.isBuiltin,
      Material.isReservedCustom, reservedCustomIds, List.contains_cons]
    by_cases h1 : t = "decal" <;> by_cases h2 : t = "studs" <;>
      by_cases h3 : t = "inlet" <;> by_cases h4 : t = "spawnlocation" <;>
      simp [h1, h2, h3, h4, beq_iff_eq]
  | _ => rfl

/-- C3: built-in material lookup is deterministic.  The value returned
by `texture_input` is independent of the configuration state on which it
is invoked, the options state is never modified by the call, and two
successive calls with the same `Material` return the same result. -/
theorem texture_input_deterministic :
    (∀ (o o' : CLIConvertOptions) (m : Material),
        (ConvertOptions.texture_input o m).1
          = (ConvertOptions.texture_input o' m).1)
    ∧ (∀ (o : CLIConvertOptions) (m : Material),
        (ConvertOptions.texture_input o m).2 = o)
    ∧ (∀ (o : CLIConvertOptions) (m : Material),
        (ConvertOptions.texture_input
            ((ConvertOptions.texture_input o m).2) m).1
          = (ConvertOptions.texture_input o m).1) := by
  refine ⟨fun o o' m => ?_, fun o m => rfl, fun o m => rfl⟩
  cases m <;> rfl

/-- C4: the resolved configuration is read-only: each accessor returns
exactly the stored field value and returns the options state unchanged,
leaving every field as it was. -/
theorem accessors_pure (o : CLIConvertOptions) :
    ConvertOptions.input_name o = (o.input_name, o)
    ∧ ConvertOptions.texture_output_enabled o
        = (o.is_texture_output_enabled, o)
    ∧ ConvertOptions.use_dev_textures o = (o.use_developer_textures, o)
    ∧ ConvertOptions.map_scale o = (o.map_scale, o)
    ∧ ConvertOptions.auto_skybox_enabled o = (o.auto_skybox_enabled, o)
    ∧ ConvertOptions.skybox_clearance o = (o.skybox_clearance, o)
    ∧ ConvertOptions.optimization_enabled o = (o.optimization_enabled, o)
    ∧ ConvertOptions.decal_size o = (o.decal_size, o)
    ∧ ConvertOptions.skybox_name o = (o.skybox_name, o)
    ∧ ConvertOptions.web_origin o = ("", o) :=
  ⟨rfl, rfl, rfl, rfl, rfl, rfl, rfl, rfl, rfl, rfl⟩

/-- C8: the CLI build's `web_origin` returns the empty string on every
options value, so the CLI never supplies a remote fetch origin and decal
image acquisition is local-only. -/
theorem web_origin_always_empty (o : CLIConvertOptions) :
    ConvertOptions.web_origin o = ("", o) :=
  rfl

/-- The `match matches.value_of("game").unwrap()` expression resolving
the skybox material name in `main` (`src/main.rs` lines 113-128).
A Rust match on `&str` patterns is an equality chain. -/
def skybox_name_of_game (game : String) : String :=
  if game = "css" then "sky_day01_05"
  else if game = "csgo" then "sky_day02_05"
  else if game = "gmod" then "painted"
  else if game = "hl2" then "sky_day01_04"
  else if game = "hl2e1" then "sky_ep01_01"
  else if game = "hl2e2" then "sky_ep02_01_hdr"
  else if game = "hl" then "city"
  else if game = "hls" then "sky_wasteland02"
  else if game = "l4d" then "river_hdr"
  else if game = "l4d2" then "sky_l4d_c1_2_hdr"
  else if game = "portal2" then "sky_day01_01"
  else if game = "portal" then "sky_day01_05_hdr"
  else if game = "tf2" then "sky_day01_01"
  else "default_skybox_fixme"

/-- The `possible_values` list of the `game` argument
(`src/main.rs` line 77). -/
def allowedGames : List String :=
  ["css", "csgo", "gmod", "hl2", "hl2e1", "hl2e2", "hl", "hls",
   "l4d", "l4d2", "portal2", "portal", "tf2"]

/-- The claim's fixed per-game skybox table, stated independently of the
match expression so the two can be compared. -/
def gameSkyboxTable : List (String × String) :=
  [("css", "sky_day01_05"), ("csgo", "sky_day02_05"),
   ("gmod", "painted"), ("hl2", "sky_day01_04"),
   ("hl2e1", "sky_ep01_01"), ("hl2e2", "sky_ep02_01_hdr"),
   ("hl", "city"), ("hls", "sky_wasteland02"),
   ("l4d", "river_hdr"), ("l4d2", "sky_l4d_c1_2_hdr"),
   ("portal2", "sky_day01_01"), ("portal", "sky_day01_05_hdr"),
   ("tf2", "sky_day01_01")]

/-- C9: for every allowed game identifier the resolved skybox material
name equals the fixed table entry and is not the placeholder; the
placeholder "default_skybox_fixme" is produced exactly for identifiers
outside the allowed set, so under the `possible_values` precondition the
placeholder branch is unreachable. -/
theorem skybox_name_table_correct :
    (∀ p, p ∈ gameSkyboxTable → skybox_name_of_game p.1 = p.2
        ∧ p.1 ∈ allowedGames ∧ p.2 ≠ "default_skybox_fixme")
    ∧ (∀ g, skybox_name_of_game g = "default_skybox_fixme"
        ↔ g ∉ allowedGames) := by
  constructor
  · intro p hp
    fin_cases hp <;>
      exact ⟨by simp [skybox_name_of_game], by simp [allowedGames], by simp⟩
  · intro g
    constructor
    · intro h hg
      fin_cases hg <;> simp [skybox_name_of_game] at h
    · intro hg
      simp only [allowedGames, List.mem_cons, List.not_mem_nil,
        or_false] at hg
      push_neg at hg
      obtain ⟨h1, h2, h3, h4, h5, h6, h7, h8, h9, h10, h11, h12, h13⟩ := hg
      simp [skybox_name_of_game, h1, h2, h3, h4, h5, h6, h7, h8, h9,
        h10, h11, h12, h13]

/-- Witness for C9 at the concrete game "css": the table maps it to
"sky_day01_05" and the match agrees. -/
theorem skybox_name_table_correct_witness :
    skybox_name_of_game "css" = "sky_day01_05"
    ∧ "css" ∈ allowedGames := by
  refine ⟨(skybox_name_table_correct.1 ("css", "sky_day01_05") ?_).1, ?_⟩
  · simp [gameSkyboxTable]
  · simp [allowedGames]

/-- Embedding of
`matches.value_of("skybox-height").map(str::parse).and_then(Result::ok).unwrap_or(0f64)`
(`src/main.rs` line 104).  The `skybox-height` argument has no default,
so its value is an `Option`; `str::parse::<f64>` is abstracted as a
fallible function returning `Except`, whose result `Result::ok` converts
to an `Option`. -/
def resolve_skybox_clearance (parse : String → Except String F64)
    (arg : Option String) : F64 :=
  ((arg.map parse).bind Except.toOption).getD 0

/-- The `map-scale` resolution in `main` (`src/main.rs` lines 96-102):
the argument has a default value so it is always present; a parse
failure prints an error and terminates the process
(`std::process::exit(-1)`), modelled as `Except.error`. -/
def resolve_map_scale (parse : String → Except String F64)
    (arg : String) : Except Unit F64 :=
  match parse arg with
  | Except.ok f => Except.ok f
  | Except.error _ => Except.error ()

/-- The `decal-size` resolution in `main` (`src/main.rs` lines 106-112):
same shape as `map-scale`, parsing a `u64`; failure terminates the
process. -/
def resolve_decal_size (parse : String → Except String Nat)
    (arg : String) : Except Unit Nat :=
  match parse arg with
  | Except.ok n => Except.ok n
  | Except.error _ => Except.error ()

/-- C10: if the skybox-height argument is absent or fails to parse, the
resolved clearance is the bit pattern of `0.0` and the run proceeds;
otherwise it is the parsed value.  In contrast, a parse failure of the
always-present map-scale or decal-size arguments terminates the
process. -/
theorem skybox_clearance_default_vs_fatal_parses
    (pf : String → Except String F64) (pn : String → Except String Nat) :
    (resolve_skybox_clearance pf none = 0)
    ∧ (∀ s e, pf s = Except.error e
        → resolve_skybox_clearance pf (some s) = 0)
    ∧ (∀ s v, pf s = Except.ok v
        → resolve_skybox_clearance pf (some s) = v)
    ∧ (∀ s e, pf s = Except.error e
        → resolve_map_scale pf s = Except.error ())
    ∧ (∀ s e, pn s = Except.error e
        → resolve_decal_size pn s = Except.error ()) := by
  refine ⟨rfl, fun s e h => ?_, fun s v h => ?_, fun s e h => ?_,
    fun s e h => ?_⟩
  · simp [resolve_skybox_clearance, h, Except.toOption]
  · simp [resolve_skybox_clearance, h, Except.toOption]
  · simp [resolve_map_scale, h]
  · simp [resolve_decal_size, h]

/-- Witness for C10 with a concrete parse function that accepts only
"1.5" (as bit pattern 42): absence and the unparsable string "abc" both
yield clearance 0, "1.5" yields 42, and "abc" makes map-scale and
decal-size resolution terminate. -/
theorem skybox_clearance_default_vs_fatal_parses_witness :
    resolve_skybox_clearance
        (fun s => if s = "1.5" then Except.ok 42
                  else Except.error "invalid") (some "abc") = 0
    ∧ resolve_map_scale
        (fun s => if s = "1.5" then Except.ok 42
                  else Except.error "invalid") "abc" = Except.error () := by
  refine ⟨(skybox_clearance_default_vs_fatal_parses
      (fun s => if s = "1.5" then Except.ok 42 else Except.error "invalid")
      (fun _ => Except.error "invalid")).2.1 "abc" "invalid" ?_,
    (skybox_clearance_default_vs_fatal_parses
      (fun s => if s = "1.5" then Except.ok 42 else Except.error "invalid")
      (fun _ => Except.error "invalid")).2.2.2.1 "abc" "invalid" ?_⟩
  · simp
  · simp

/-- Lexical path normalization: resolves "." and ".." components the way
the file system resolves the created file's location.  `normAux acc p`
processes the components of `p` left to right onto the already-normalized
accumulator `acc`. -/
def normAux : List String → List String → List String
  | acc, [] => acc
  | acc, c :: cs =>
    if c = "." then normAux acc cs
    else if c = ".." then
      if acc ≠ [] ∧ acc.getLast? ≠ some ".." then normAux acc.dropLast cs
      else normAux (acc ++ [".."]) cs
    else normAux (acc ++ [c]) cs

/-- Normal form of a relative path. -/
def normalizePath (p : FsPath) : FsPath :=
  normAux [] p

/-- Predicate `leadsWith as bs`: `as` is an initial segment of `bs`. -/
def leadsWith : List String → List String → Bool
  | [], _ => true
  | _ :: _, [] => false
  | a :: as, b :: bs => a == b && leadsWith as bs

/-- A path `q` resolves within the folder `folder` when the folder's
normal form is an initial segment of `q`'s normal form. -/
def resolvesWithin (folder q : FsPath) : Bool :=
  leadsWith (normalizePath folder) (normalizePath q)

/-- A concrete `CLIConvertOptions` value: the defaults of `src/main.rs`
(output "rbxlx_out.vmf", texture folder "./textures-out", map scale 15,
decal size 256) for game "css" with input "map.rbxlx". -/
def sampleOptions : CLIConvertOptions :=
  { input_name := "map.rbxlx"
    input_path := "map.rbxlx"
    output_path := "rbxlx_out.vmf"
    texture_output_folder := ["textures-out"]
    is_texture_output_enabled := true
    use_developer_textures := false
    map_scale := 15
    auto_skybox_enabled := false
    skybox_clearance := 0
    optimization_enabled := false
    decal_size := 256
    skybox_name := "sky_day01_05" }

theorem normAux_append (xs : List String) :
    ∀ (acc : List String) (ys : List String),
      normAux acc (xs ++ ys) = normAux (normAux acc xs) ys := by
  induction xs with
  | nil => intro acc ys; rfl
  | cons c cs ih =>
    intro acc ys
    by_cases h1 : c = "."
    · simp [normAux, h1, ih]
    · by_cases h2 : c = ".."
      · by_cases h3 : acc ≠ [] ∧ acc.getLast? ≠ some ".."
        · simp [normAux, h1, h2, h3, ih]
        · simp [normAux, h1, h2, h3, ih]
      · simp [normAux, h1, h2, ih]

theorem normAux_no_up (p : List String) :
    ∀ acc : List String, ".." ∉ p
      → normAux acc p = acc ++ p.filter (fun c => c ≠ ".") := by
  induction p with
  | nil => intro acc _; simp [normAux]
  | cons c cs ih =>
    intro acc hp
    have hc : c ≠ ".." := fun h => hp (h ▸ List.mem_cons_self c cs)
    have hcs : ".." ∉ cs := fun h => hp (List.mem_cons_of_mem c h)
    by_cases h1 : c = "."
    · simp [normAux, h1, ih _ hcs]
    · simp [normAux, h1, hc, ih _ hcs]

theorem leadsWith_append (as bs : List String) :
    leadsWith as (as ++ bs) = true := by
  induction as with
  | nil => rfl
  | cons a as ih => simp [leadsWith, ih]

/-- C5 counterexample: at the default texture folder "textures-out", the
relative path "../evil" is joined verbatim, and the joined path
"textures-out/../evil" resolves to "evil", outside the folder.  The
claim's "never a path outside that folder" fails for relative paths with
parent-directory components. -/
theorem texture_output_escape_counterexample :
    (ConvertOptions.texture_output sampleOptions ["..", "evil"]).1
      = ["textures-out", "..", "evil"]
    ∧ normalizePath
        (ConvertOptions.texture_output sampleOptions ["..", "evil"]).1
      = ["evil"]
    ∧ resolvesWithin ["textures-out"]
        (ConvertOptions.texture_output sampleOptions ["..", "evil"]).1
      = false := by
  refine ⟨rfl, ?_, ?_⟩
  · simp [ConvertOptions.texture_output, sampleOptions, normalizePath,
      normAux]
  · simp [ConvertOptions.texture_output, sampleOptions, resolvesWithin,
      normalizePath, normAux, leadsWith]

/-- C5 (amended): for every options value and relative path `p`,
`texture_output` returns the sink at the join of the configured texture
output folder with `p`; when `p` contains no parent-directory ".."
component, the joined path resolves within the folder. -/
theorem texture_output_joins_within (o : CLIConvertOptions) (p : FsPath)
    (hp : ".." ∉ p) :
    (ConvertOptions.texture_output o p).1 = o.texture_output_folder ++ p
    ∧ resolvesWithin o.texture_output_folder
        (ConvertOptions.texture_output o p).1 = true := by
  refine ⟨rfl, ?_⟩
  simp only [ConvertOptions.texture_output, resolvesWithin, normalizePath,
    normAux_append, normAux_no_up p _ hp]
  exact leadsWith_append _ _

/-- Witness for C5 (amended) at the concrete relative path
"rbx/img_256.png" under the default folder. -/
theorem texture_output_joins_within_witness :
    (ConvertOptions.texture_output sampleOptions ["rbx", "img_256.png"]).1
      = ["textures-out", "rbx", "img_256.png"]
    ∧ resolvesWithin ["textures-out"]
        (ConvertOptions.texture_output sampleOptions
          ["rbx", "img_256.png"]).1 = true := by
  have h := texture_output_joins_within sampleOptions
    ["rbx", "img_256.png"] (by simp)
  exact ⟨h.1, h.2⟩

/-- Modelled from the spec: the `vmf` module's DocumentWriter is not in
src/.  Spec §4.6/§6: the writer's only identity state is one
monotonically increasing integer counter shared across the whole
document. -/
structure VmfWriterState : Type where
  nextId : Nat
deriving DecidableEq

/-- Modelled from the spec: draw the next identity from the shared
counter and advance it. -/
def takeId (s : VmfWriterState) : Nat × VmfWriterState :=
  (s.nextId, ⟨s.nextId + 1⟩)

/-- Modelled from the spec: emit the side (face) blocks of one brush;
each face receives its own identity from the shared counter.  A brush is
abstracted by its face count; the returned list holds the identities of
the emitted blocks in emission order. -/
def writeFaces : Nat → VmfWriterState → List Nat × VmfWriterState
  | 0, s => ([], s)
  | n + 1, s =>
    let (i, s1) := takeId s
    let (is, s2) := writeFaces n s1
    (i :: is, s2)

/-- Modelled from the spec: emit one solid (brush) block — the brush
receives its identity, then its constituent faces receive theirs, all
from the same counter. -/
def writeBrush (faceCount : Nat) (s : VmfWriterState) :
    List Nat × VmfWriterState :=
  let (i, s1) := takeId s
  let (is, s2) := writeFaces faceCount s1
  (i :: is, s2)

/-- Modelled from the spec: emit the brush blocks in sequence. -/
def writeBrushes : List Nat → VmfWriterState → List Nat × VmfWriterState
  | [], s => ([], s)
  | n :: ns, s =>
    let (is, s1) := writeBrush n s
    let (js, s2) := writeBrushes ns s1
    (is ++ js, s2)

/-- Modelled from the spec: serialize the document — a root world block
(with its own identity) containing one entry per brush.  Returns the
identities of every emitted block (world, brushes, faces) in emission
order. -/
def write_document (brushes : List Nat) (s : VmfWriterState) :
    List Nat × VmfWriterState :=
  let (w, s1) := takeId s
  let (is, s2) := writeBrushes brushes s1
  (w :: is, s2)

/-- Number of identities a brush list consumes: one per brush plus one
per face. -/
def totalIds (brushes : List Nat) : Nat :=
  (brushes.map (· + 1)).sum

theorem writeFaces_eq (n : Nat) :
    ∀ s : VmfWriterState,
      writeFaces n s = (List.range' s.nextId n, ⟨s.nextId + n⟩) := by
  induction n with
  | zero => intro s; rfl
  | succ n ih =>
    intro s
    simp only [writeFaces, takeId, ih, List.range'_succ]
    exact congrArg _ (congrArg _ (by omega))

theorem writeBrush_eq (n : Nat) (s : VmfWriterState) :
    writeBrush n s = (List.range' s.nextId (n + 1), ⟨s.nextId + (n + 1)⟩) := by
  simp only [writeBrush, takeId, writeFaces_eq, List.range'_succ]
  exact congrArg _ (congrArg _ (by omega))

theorem writeBrushes_eq (ns : List Nat) :
    ∀ s : VmfWriterState,
      writeBrushes ns s
        = (List.range' s.nextId (totalIds ns), ⟨s.nextId + totalIds ns⟩) := by
  induction ns with
  | nil => intro s; rfl
  | cons n ns ih =>
    intro s
    simp only [writeBrushes, writeBrush_eq, ih, totalIds, List.map_cons,
      List.sum_cons]
    refine congrArg₂ _ ?_ (congrArg _ (by omega))
    rw [List.range'_append_1]
    congr 1
    omega

/-- C6: in one run, `write_document` assigns the world block, every
brush block and every face block identities drawn from one shared
strictly increasing counter: the emitted identities are the consecutive
range starting at the counter, they are strictly increasing in emission
order, and no two emitted blocks carry the same identity. -/
theorem write_document_ids_unique (brushes : List Nat)
    (s : VmfWriterState) :
    (write_document brushes s).1
      = List.range' s.nextId (1 + totalIds brushes)
    ∧ List.Pairwise (· < ·) (write_document brushes s).1
    ∧ (write_document brushes s).1.Nodup := by
  have h : (write_document brushes s).1
      = List.range' s.nextId (1 + totalIds brushes) := by
    simp only [write_document, takeId, writeBrushes_eq]
    rw [Nat.add_comm 1 (totalIds brushes), ← List.range'_append_1]
    simp [List.range']
  refine ⟨h, ?_, ?_⟩
  · rw [h]; exact List.pairwise_lt_range' _ _
  · rw [h]; exact List.nodup_range' _ _

/-- Modelled from the spec: the `conv` module's Optimizer is not in
src/.  Spec §4.4: merging considers only exact axis-aligned rectangular
prisms, so a brush is abstracted by its axis-aligned extent (exact
integer-scaled coordinates: face-to-face contact is exact equality of
bounds), its material+texture assignment and its transparency (both
carried as opaque keys compared for equality). -/
structure Prism : Type where
  xmin : Int
  xmax : Int
  ymin : Int
  ymax : Int
  zmin : Int
  zmax : Int
  material : Nat
  transparency : Nat
deriving DecidableEq

/-- Modelled from the spec: adjacency along the x axis — exact
face-to-face contact on x (no gap, no overlap) and identical extents
along the other two axes. -/
def adjacentX (a b : Prism) : Bool :=
  (a.xmax == b.xmin || b.xmax == a.xmin)
  && a.ymin == b.ymin && a.ymax == b.ymax
  && a.zmin == b.zmin && a.zmax == b.zmax

/-- Modelled from the spec: adjacency along the y axis. -/
def adjacentY (a b : Prism) : Bool :=
  (a.ymax == b.ymin || b.ymax == a.ymin)
  && a.xmin == b.xmin && a.xmax == b.xmax
  && a.zmin == b.zmin && a.zmax == b.zmax

/-- Modelled from the spec: adjacency along the z axis. -/
def adjacentZ (a b : Prism) : Bool :=
  (a.zmax == b.zmin || b.zmax == a.zmin)
  && a.xmin == b.xmin && a.xmax == b.xmax
  && a.ymin == b.ymin && a.ymax == b.ymax

/-- Modelled from the spec: two prisms are merge-candidates iff they
share an identical material+texture assignment, an identical
transparency, and are adjacent along one axis with identical extents
along the other two (for non-degenerate prisms at most one axis can
satisfy its adjacency conjunct). -/
def mergeCandidate (a b : Prism) : Bool :=
  a.material == b.material && a.transparency == b.transparency
  && (adjacentX a b || adjacentY a b || adjacentZ a b)

/-- Modelled from the spec: merging replaces the pair with a single
prism spanning their union extent, keeping the shared material and
transparency. -/
def mergePrisms (a b : Prism) : Prism :=
  { xmin := min a.xmin b.xmin, xmax := max a.xmax b.xmax
    ymin := min a.ymin b.ymin, ymax := max a.ymax b.ymax
    zmin := min a.zmin b.zmin, zmax := max a.zmax b.zmax
    material := a.material, transparency := a.transparency }

/-- Modelled from the spec: find the first prism in the list that is a
merge-candidate with `a`; on success return the list with that partner
replaced by the merged prism. -/
def pickPartner (a : Prism) : List Prism → Option (List Prism)
  | [] => none
  | c :: cs =>
    if mergeCandidate a c then some (mergePrisms a c :: cs)
    else match pickPartner a cs with
      | some cs' => some (c :: cs')
      | none => none

/-- Modelled from the spec: find the first merge-candidate pair in the
brush list and merge it; `none` when no merge-candidate pair exists. -/
def findMerge : List Prism → Option (List Prism)
  | [] => none
  | b :: rest =>
    match pickPartner b rest with
    | some rest' => some rest'
    | none =>
      match findMerge rest with
      | some rest' => some (b :: rest')
      | none => none

/-- Modelled from the spec: apply merging iteratively until no
merge-candidate pair exists.  Each merge strictly reduces the brush
count, so a fuel of the input length reaches the fixed point. -/
def optimizeFuel : Nat → List Prism → List Prism
  | 0, bs => bs
  | f + 1, bs =>
    match findMerge bs with
    | none => bs
    | some bs' => optimizeFuel f bs'

/-- Modelled from the spec (§4.4): `optimize(brushes)` — iterated
merging to the fixed point with no remaining merge-candidate pair. -/
def optimize (bs : List Prism) : List Prism :=
  optimizeFuel bs.length bs

theorem pickPartner_length (a : Prism) :
    ∀ l l' : List Prism, pickPartner a l = some l'
      → l'.length = l.length := by
  intro l
  induction l with
  | nil => intro l' h; simp [pickPartner] at h
  | cons c cs ih =>
    intro l' h
    simp only [pickPartner] at h
    split at h
    · simp only [Option.some.injEq] at h
      cases h
      rfl
    · cases hcs : pickPartner a cs with
      | none => simp [hcs] at h
      | some cs' =>
        simp only [hcs, Option.some.injEq] at h
        cases h
        simp [ih cs' hcs]

theorem findMerge_length :
    ∀ l l' : List Prism, findMerge l = some l'
      → l.length = l'.length + 1 := by
  intro l
  induction l with
  | nil => intro l' h; simp [findMerge] at h
  | cons b rest ih =>
    intro l' h
    simp only [findMerge] at h
    cases hp : pickPartner b rest with
    | some rest' =>
      simp only [hp, Option.some.injEq] at h
      have hlen := pickPartner_length b rest rest' hp
      cases h
      simp [hlen]
    | none =>
      simp only [hp] at h
      cases hr : findMerge rest with
      | none => simp [hr] at h
      | some rest' =>
        simp only [hr, Option.some.injEq] at h
        have hlen := ih rest' hr
        cases h
        simp [hlen]

theorem optimizeFuel_of_fixed (f : Nat) (bs : List Prism)
    (h : findMerge bs = none) : optimizeFuel f bs = bs := by
  cases f with
  | zero => rfl
  | succ f => simp [optimizeFuel, h]

theorem findMerge_optimizeFuel_none :
    ∀ (f : Nat) (bs : List Prism), bs.length ≤ f
      → findMerge (optimizeFuel f bs) = none := by
  intro f
  induction f with
  | zero =>
    intro bs hlen
    have : bs = [] := List.length_eq_zero.mp (Nat.le_zero.mp hlen)
    subst this
    rfl
  | succ f ih =>
    intro bs hlen
    cases h : findMerge bs with
    | none => simp [optimizeFuel, h]
    | some bs' =>
      have hl := findMerge_length bs bs' h
      simp only [optimizeFuel, h]
      exact ih bs' (by omega)

/-- C7: the Optimizer is idempotent — `optimize` reaches a fixed point
with no remaining merge-candidate pair, so running it a second time
returns its input unchanged: `optimize (optimize bs) = optimize bs`. -/
theorem optimize_idempotent (bs : List Prism) :
    findMerge (optimize bs) = none
    ∧ optimize (optimize bs) = optimize bs := by
  have h : findMerge (optimize bs) = none :=
    findMerge_optimizeFuel_none bs.length bs (Nat.le_refl _)
  exact ⟨h, optimizeFuel_of_fixed _ _ h⟩

/-- A texture reference handed back to callers by the resolver. -/
abbrev TextureRef : Type := String

/-- Modelled from the spec: the designated placeholder texture reference
the resolver falls back to (§4.2). -/
def placeholderTexture : TextureRef := "placeholder"

/-- Outcome of resolving one material: the reference returned to the
caller, the warnings accumulated, and whether the run was aborted. -/
structure ResolveOutcome : Type where
  ref : TextureRef
  warnings : List String
  aborted : Bool
deriving DecidableEq

/-- Modelled from the spec: the `conv` module's MaterialResolver is not
in src/.  Spec §4.2/§5/§8: resolving a custom decal uses the cache when
it holds the image; otherwise, a remote fetch is attempted only when the
web origin is non-empty (an empty origin disables remote fetch, forcing
local-only/fallback behavior); when no cached or fetched image is
available the resolver falls back to the designated placeholder
reference with one accumulated non-fatal warning and never aborts the
run. -/
def resolveCustomDecal (webOrigin : String) (cached : Option TextureRef)
    (fetched : Option TextureRef) : ResolveOutcome :=
  match cached with
  | some r => { ref := r, warnings := [], aborted := false }
  | none =>
    if webOrigin = "" then
      { ref := placeholderTexture
        warnings := ["could not resolve custom decal"], aborted := false }
    else
      match fetched with
      | some r => { ref := r, warnings := [], aborted := false }
      | none =>
        { ref := placeholderTexture
          warnings := ["could not resolve custom decal"], aborted := false }

/-- C2: under the CLI's web origin (always the empty string, per
`CLIConvertOptions::web_origin`), a custom decal whose image is not in
the cache resolves to the designated placeholder texture with exactly
one accumulated warning, and the run is not aborted — whatever a remote
fetch would have produced. -/
theorem cli_custom_decal_fallback (o : CLIConvertOptions)
    (cached fetched : Option TextureRef) (hc : cached = none) :
    (resolveCustomDecal (ConvertOptions.web_origin o).1 cached fetched).ref
      = placeholderTexture
    ∧ (resolveCustomDecal (ConvertOptions.web_origin o).1 cached
        fetched).warnings.length = 1
    ∧ (resolveCustomDecal (ConvertOptions.web_origin o).1 cached
        fetched).aborted = false := by
  subst hc
  exact ⟨rfl, rfl, rfl⟩

/-- Witness for C2 at a concrete run: the sample options, an empty
cache and no fetchable image. -/
theorem cli_custom_decal_fallback_witness :
    (resolveCustomDecal (ConvertOptions.web_origin sampleOptions).1
        none none).ref = placeholderTexture
    ∧ (resolveCustomDecal (ConvertOptions.web_origin sampleOptions).1
        none none).aborted = false :=
  ⟨(cli_custom_decal_fallback sampleOptions none none rfl).1,
   (cli_custom_decal_fallback sampleOptions none none rfl).2.2⟩
